import Mathlib

/-!
Shallow embedding of the Options Chain Risk and Vehicle-Selection Analysis
Engine of the repository (src/nubackend1): ChainAnalyzer
(src/options_mcp/analysis/chain_analyzer.py), RiskEngine (risk_engine.py),
VehicleSelector (vehicle_selector.py), the spread evaluator
(`_analyze_spread_trade` in main.py) and the put/call ratio helper
(`_compute_pcr` in server.py).

Modelling conventions:
* Python floats are modelled as rationals (`ℚ`).
* A pandas DataFrame of option rows is a `List OptionRow`; a possibly-NaN
  numeric cell is an `Option` value (`none` = NaN/absent).  Volume and open
  interest are natural numbers (the data model declares them as integers
  >= 0); pandas `.sum()` skips NaN, which is `Option.getD 0` here.
* `Series.nlargest(n, col)` (keep=first, NaN rows dropped) is: drop the rows
  where the column is absent, sort by (column descending, original position
  ascending) and take `n`.  Positions are made explicit by `List.enum`.
* Python `round(x, 2)` applied by the HTTP layer for display is elided from
  the numeric fields (the fields below carry the computed values); the
  `abs(...)` applied to the reported max loss is kept, because it changes
  the value's sign, not just its printed precision.
-/

attribute [local semireducible] Rat.add Rat.mul Rat.inv Rat.sub Rat.ofScientific

/-- Configuration constant `TOP_STRIKES_LIMIT` from config.py. -/
def TOP_STRIKES_LIMIT : ℕ := 5

/-- One row of an options-chain DataFrame (a Contract).  `none` models a
NaN/absent cell. -/
structure OptionRow where
  strike : ℚ
  volume : Option ℕ
  openInterest : Option ℕ
  impliedVolatility : ℚ
  delta : Option ℚ
deriving DecidableEq, Repr

/-- The filter `options_df[options_df["volume"] >= min_volume]`: a NaN
volume compares false in pandas, hence is never liquid. -/
def isLiquid (min_volume : ℕ) (r : OptionRow) : Bool :=
  match r.volume with
  | some v => min_volume ≤ v
  | none => false

/-- Rows of the chain paired with their original positions, restricted to
the liquid subset (`liquid_options` in analyze_chain). -/
def liquidRows (rows : List OptionRow) (min_volume : ℕ) : List (ℕ × OptionRow) :=
  rows.enum.filter (fun q => isLiquid min_volume q.2)

/-- Maximum of a list of rationals (`Series.max`); 0 for the empty list,
which analyze_chain never hits (it returns early on an empty chain). -/
def listMax : List ℚ → ℚ
  | [] => 0
  | x :: xs => xs.foldl max x

/-- Minimum of a list of rationals (`Series.min`). -/
def listMin : List ℚ → ℚ
  | [] => 0
  | x :: xs => xs.foldl min x

/-- First element of `l` attaining the minimum of `f`
(`distance.argsort().iloc[:1]` followed by `.iloc`): the accumulator is
replaced only on a strictly smaller value, so ties keep the earliest row. -/
def argminFirst (f : α → ℚ) : List α → Option α
  | [] => none
  | x :: xs => some (xs.foldl (fun b y => if f y < f b then y else b) x)

/-- Ranking order used to model `nlargest`: metric descending, original
position ascending (pandas keep=first). -/
def rankLe (metric : OptionRow → Option ℕ) (a b : ℕ × OptionRow) : Prop :=
  (metric b.2).getD 0 < (metric a.2).getD 0 ∨
    ((metric a.2).getD 0 = (metric b.2).getD 0 ∧ a.1 ≤ b.1)

instance (metric : OptionRow → Option ℕ) : DecidableRel (rankLe metric) :=
  fun a b => by unfold rankLe; infer_instance

instance (metric : OptionRow → Option ℕ) : IsTotal (ℕ × OptionRow) (rankLe metric) := by
  constructor
  intro a b
  unfold rankLe
  omega

instance (metric : OptionRow → Option ℕ) : IsTrans (ℕ × OptionRow) (rankLe metric) := by
  constructor
  intro a b c hab hbc
  unfold rankLe at *
  omega

/-- `liquid_options.nlargest(TOP_STRIKES_LIMIT, col)`: drop rows whose
ranking column is NaN, sort by the column descending keeping the original
order on ties, take the limit. -/
def nlargestBy (metric : OptionRow → Option ℕ) (l : List (ℕ × OptionRow)) :
    List (ℕ × OptionRow) :=
  ((l.filter (fun q => (metric q.2).isSome)).insertionSort (rankLe metric)).take
    TOP_STRIKES_LIMIT

/-- `TopVolumeStrike` model from models.py. -/
structure TopVolumeStrike where
  strike : ℚ
  volume : ℕ
  iv : ℚ
deriving DecidableEq, Repr

/-- `TopOIStrike` model from models.py. -/
structure TopOIStrike where
  strike : ℚ
  open_interest : ℕ
  iv : ℚ
deriving DecidableEq, Repr

/-- `ChainAnalysis` model from models.py. -/
structure ChainAnalysis where
  total_contracts : ℕ
  liquid_contracts : ℕ
  total_volume : ℕ
  total_open_interest : ℕ
  avg_implied_volatility : ℚ
  max_iv : ℚ
  min_iv : ℚ
  atm_strike : Option ℚ
  atm_iv : Option ℚ
  atm_delta : Option ℚ
  top_volume_strikes : List TopVolumeStrike
  top_oi_strikes : List TopOIStrike
deriving DecidableEq, Repr

/-- `ChainAnalyzer._top_by_volume` applied to the (indexed) liquid subset. -/
def top_by_volume (liquid : List (ℕ × OptionRow)) : List TopVolumeStrike :=
  (nlargestBy (fun r => r.volume) liquid).map
    (fun q => ⟨q.2.strike, q.2.volume.getD 0, q.2.impliedVolatility * 100⟩)

/-- `ChainAnalyzer._top_by_oi` applied to the (indexed) liquid subset. -/
def top_by_oi (liquid : List (ℕ × OptionRow)) : List TopOIStrike :=
  (nlargestBy (fun r => r.openInterest) liquid).map
    (fun q => ⟨q.2.strike, q.2.openInterest.getD 0, q.2.impliedVolatility * 100⟩)

/-- `ChainAnalyzer.analyze_chain(options_df, current_price, min_volume,
chain_type)`: `chain_type` is only used for logging.  Empty chain returns
`none`; otherwise all aggregate statistics range over the full chain while
ATM detection and the top-strike lists range over the liquid subset. -/
def analyze_chain (rows : List OptionRow) (current_price : ℚ) (min_volume : ℕ)
    (chain_type : String) : Option ChainAnalysis :=
  if rows.isEmpty then
    none
  else
    let _ := chain_type
    let liquid := liquidRows rows min_volume
    let atm := argminFirst (fun q => |q.2.strike - current_price|) liquid
    some
      { total_contracts := rows.length
        liquid_contracts := liquid.length
        total_volume := (rows.map (fun r => r.volume.getD 0)).sum
        total_open_interest := (rows.map (fun r => r.openInterest.getD 0)).sum
        avg_implied_volatility :=
          (rows.map (fun r => r.impliedVolatility)).sum / (rows.length : ℚ) * 100
        max_iv := listMax (rows.map (fun r => r.impliedVolatility)) * 100
        min_iv := listMin (rows.map (fun r => r.impliedVolatility)) * 100
        atm_strike := atm.map (fun q => q.2.strike)
        atm_iv := atm.map (fun q => q.2.impliedVolatility * 100)
        atm_delta := atm.bind (fun q => q.2.delta)
        top_volume_strikes := top_by_volume liquid
        top_oi_strikes := top_by_oi liquid }

/-- `PutCallRatio` model from models.py. -/
structure PutCallRatio where
  volume : Option ℚ
  open_interest : Option ℚ
deriving DecidableEq, Repr

/-- `_compute_pcr` from server.py: `None` unless both side analyses are
present; each component ratio is computed only when the calls-side total is
strictly positive. -/
def compute_pcr (calls puts : Option ChainAnalysis) : Option PutCallRatio :=
  match calls, puts with
  | some c, some p =>
      some
        { volume :=
            if 0 < c.total_volume then
              some ((p.total_volume : ℚ) / (c.total_volume : ℚ))
            else none
          open_interest :=
            if 0 < c.total_open_interest then
              some ((p.total_open_interest : ℚ) / (c.total_open_interest : ℚ))
            else none }
  | _, _ => none

/-- Helper for `strContains`: does `pat` occur as a contiguous run in the
character list? -/
def charsContain (pat : List Char) : List Char → Bool
  | [] => pat.isPrefixOf ([] : List Char)
  | c :: cs => pat.isPrefixOf (c :: cs) || charsContain pat cs

/-- Python substring test `pat in s`. -/
def strContains (s pat : String) : Bool :=
  charsContain pat.data s.data

/-- Python `str.lower()` (over the character list, so that it evaluates by
kernel reduction). -/
def strToLower (s : String) : String :=
  String.mk (s.data.map Char.toLower)

/-- One leg of a spread as returned by `_find_contract` in main.py (a row
dictionary).  The `or 0` coalescing in the source maps an absent value to 0,
modelled by `Option.getD 0`. -/
structure OptionLeg where
  bid : Option ℚ
  ask : Option ℚ
  impliedVolatility : Option ℚ
  delta : Option ℚ
deriving DecidableEq, Repr

/-- The `close_analysis` sub-dictionary of the spread result (main.py).
Fields carry the computed values; `round(x, 2)` display rounding elided. -/
structure CloseAnalysis where
  entry_price : ℚ
  current_value : ℚ
  pnl_per_spread : ℚ
  total_pnl : ℚ
  pnl_percent : ℚ
deriving DecidableEq, Repr

/-- The spread-metrics dictionary built by `_analyze_spread_trade`
(main.py).  Display-only entries (per-leg echo of the inputs, the
IV percentage heuristic) are elided; `max_loss` keeps the `abs(...)` of
the source since it changes the value, not just its rendering. -/
structure SpreadResult where
  spread_type : String
  action : String
  buy_strike : ℚ
  sell_strike : ℚ
  contracts : ℕ
  spread_width : ℚ
  is_credit : Bool
  net_premium : ℚ
  max_profit : ℚ
  max_loss : ℚ
  risk_reward_ratio : ℚ
  breakeven : ℚ
  net_delta : ℚ
  close_analysis : Option CloseAnalysis
deriving DecidableEq, Repr

/-- `_analyze_spread_trade` from main.py, restricted to the pure spread
economics: the data-fetch part (ticker, expiration and nearest-strike
contract lookup) supplies `buy_leg`/`sell_leg` and is a collaborator, so
the legs are taken as inputs here.  The source picks a calls or puts chain
from the spread type and raises `ValueError` on an unknown type; the same
seven type strings are accepted here. -/
def analyze_spread_trade (spread_type0 action : String)
    (buy_strike sell_strike : ℚ) (contracts : ℕ) (entry_price : Option ℚ)
    (buy_leg sell_leg : OptionLeg) : Except String SpreadResult :=
  let spread_type := strToLower spread_type0
  let is_credit := spread_type == "bull_put_credit" || spread_type == "bear_call_credit"
  if spread_type == "bull_call" || spread_type == "bear_call_credit" ||
      spread_type == "bear_put" || spread_type == "bull_put_credit" ||
      spread_type == "iron_condor" || spread_type == "straddle" ||
      spread_type == "strangle" then
    let spread_width := |sell_strike - buy_strike|
    let net_premium :=
      if is_credit then sell_leg.bid.getD 0 - buy_leg.ask.getD 0
      else buy_leg.ask.getD 0 - sell_leg.bid.getD 0
    let max_profit :=
      if is_credit then net_premium * 100 * (contracts : ℚ)
      else (spread_width - net_premium) * 100 * (contracts : ℚ)
    let max_loss_raw :=
      if is_credit then (spread_width - net_premium) * 100 * (contracts : ℚ)
      else net_premium * 100 * (contracts : ℚ)
    let breakeven :=
      if is_credit then
        if strContains spread_type "put" then sell_strike - net_premium
        else sell_strike + net_premium
      else
        if strContains spread_type "call" then buy_strike + net_premium
        else buy_strike - net_premium
    let rr_ratio := if max_loss_raw ≠ 0 then |max_profit / max_loss_raw| else 0
    let close :=
      if action == "close" then
        entry_price.map (fun e =>
          let current_value :=
            if is_credit then sell_leg.ask.getD 0 - buy_leg.bid.getD 0
            else buy_leg.bid.getD 0 - sell_leg.ask.getD 0
          let pnl := if is_credit then e - current_value else current_value - e
          { entry_price := e
            current_value := current_value
            pnl_per_spread := pnl
            total_pnl := pnl * 100 * (contracts : ℚ)
            pnl_percent := if e ≠ 0 then pnl / e * 100 else 0 })
      else none
    .ok
      { spread_type := spread_type
        action := action
        buy_strike := buy_strike
        sell_strike := sell_strike
        contracts := contracts
        spread_width := spread_width
        is_credit := is_credit
        net_premium := net_premium
        max_profit := max_profit
        max_loss := |max_loss_raw|
        risk_reward_ratio := rr_ratio
        breakeven := breakeven
        net_delta := buy_leg.delta.getD 0 - sell_leg.delta.getD 0
        close_analysis := close }
  else
    .error ("Unknown spread type: " ++ spread_type ++
      ". Use: bull_call, bear_put, bull_put_credit, bear_call_credit, " ++
      "iron_condor, straddle, strangle")

/-- `Timeframe` enum from models.py. -/
inductive Timeframe
  | swing
  | day
  | scalp
deriving DecidableEq, Repr

/-- `VolatilityRegime` enum from models.py. -/
inductive VolatilityRegime
  | low
  | medium
  | high
deriving DecidableEq, Repr

/-- `Vehicle` enum from models.py. -/
inductive Vehicle
  | stock
  | option_call
  | option_put
  | option_spread
deriving DecidableEq, Repr

/-- `Bias` enum from models.py; `vehicle_selector.py` compares it against
the string "bullish", which for the str-enum is the `bullish` member. -/
inductive Bias
  | bullish
  | bearish
  | neutral
deriving DecidableEq, Repr

/-- `VehicleRecommendation` model from models.py with the numeric and tag
fields; the free-text `reasoning` and `spread_width_info` strings are
display-only and elided. -/
structure VehicleRecommendation where
  vehicle : Vehicle
  dte_range : Option (ℤ × ℤ) := none
  delta_range : Option (ℚ × ℚ) := none
  spread_type : Option String := none
  expected_move_percent : Option ℚ := none
deriving DecidableEq, Repr

/-- Configuration constants from config.py used by VehicleSelector. -/
def OPTION_MIN_EXPECTED_MOVE : ℚ := 3

/-- `OPTION_SWING_MIN_DTE` from config.py. -/
def OPTION_SWING_MIN_DTE : ℤ := 30

/-- `OPTION_SWING_MAX_DTE` from config.py. -/
def OPTION_SWING_MAX_DTE : ℤ := 45

/-- `OPTION_CALL_DELTA_MIN` from config.py. -/
def OPTION_CALL_DELTA_MIN : ℚ := 40/100

/-- `OPTION_CALL_DELTA_MAX` from config.py. -/
def OPTION_CALL_DELTA_MAX : ℚ := 60/100

/-- `OPTION_PUT_DELTA_MIN` from config.py. -/
def OPTION_PUT_DELTA_MIN : ℚ := -(60/100)

/-- `OPTION_PUT_DELTA_MAX` from config.py. -/
def OPTION_PUT_DELTA_MAX : ℚ := -(40/100)

/-- `VehicleSelector.select` from vehicle_selector.py, with the selector
instantiated at its config.py defaults (as every call site does). -/
def VehicleSelector.select (timeframe : Timeframe)
    (volatility_regime : VolatilityRegime) (bias : Bias)
    (expected_move_percent : ℚ) : VehicleRecommendation :=
  if timeframe ≠ Timeframe.swing then
    { vehicle := Vehicle.stock }
  else if expected_move_percent < OPTION_MIN_EXPECTED_MOVE then
    { vehicle := Vehicle.stock
      expected_move_percent := some expected_move_percent }
  else
    let dte_range := (OPTION_SWING_MIN_DTE, OPTION_SWING_MAX_DTE)
    if volatility_regime = VolatilityRegime.medium then
      if bias = Bias.bullish then
        { vehicle := Vehicle.option_call
          dte_range := some dte_range
          delta_range := some (OPTION_CALL_DELTA_MIN, OPTION_CALL_DELTA_MAX)
          expected_move_percent := some expected_move_percent }
      else
        { vehicle := Vehicle.option_put
          dte_range := some dte_range
          delta_range := some (OPTION_PUT_DELTA_MIN, OPTION_PUT_DELTA_MAX)
          expected_move_percent := some expected_move_percent }
    else if volatility_regime = VolatilityRegime.high then
      if bias = Bias.bullish then
        { vehicle := Vehicle.option_spread
          dte_range := some dte_range
          delta_range := some (OPTION_CALL_DELTA_MIN, OPTION_CALL_DELTA_MAX)
          spread_type := some "Bull Call Spread"
          expected_move_percent := some expected_move_percent }
      else
        { vehicle := Vehicle.option_spread
          dte_range := some dte_range
          delta_range := some (OPTION_PUT_DELTA_MIN, OPTION_PUT_DELTA_MAX)
          spread_type := some "Bear Put Spread"
          expected_move_percent := some expected_move_percent }
    else
      { vehicle := Vehicle.stock
        expected_move_percent := some expected_move_percent }

/-- Round to the nearest integer, ties to even (the rounding CPython uses
when formatting a float with a fixed precision). -/
def roundHalfEven (q : ℚ) : ℤ :=
  let f := Rat.floor q
  if q - f < 1/2 then f
  else if 1/2 < q - f then f + 1
  else if f % 2 = 0 then f else f + 1

/-- Decimal rendering of an integer, as Python `str`. -/
def intStr (i : ℤ) : String :=
  if i < 0 then "-" ++ Nat.repr i.natAbs else Nat.repr i.natAbs

/-- Left-pad with zeros to the given width. -/
def padZeros (s : String) (width : ℕ) : String :=
  String.mk (List.replicate (width - s.data.length) '0') ++ s

/-- Python fixed-point formatting `f"{q:.precf}"` of a (rational-valued)
float. -/
def formatFixed (q : ℚ) (prec : ℕ) : String :=
  let scaled := roundHalfEven (q * ((10 ^ prec : ℕ) : ℚ))
  let sign := if scaled < 0 then "-" else ""
  let a := scaled.natAbs
  if prec = 0 then sign ++ Nat.repr a
  else
    sign ++ Nat.repr (a / 10 ^ prec) ++ "." ++
      padZeros (Nat.repr (a % 10 ^ prec)) prec

/-- `IV_HIGH_THRESHOLD` from config.py. -/
def IV_HIGH_THRESHOLD : ℚ := 60

/-- `IV_LOW_THRESHOLD` from config.py. -/
def IV_LOW_THRESHOLD : ℚ := 20

/-- `PCR_BEARISH_THRESHOLD` from config.py. -/
def PCR_BEARISH_THRESHOLD : ℚ := 15/10

/-- `PCR_BULLISH_THRESHOLD` from config.py. -/
def PCR_BULLISH_THRESHOLD : ℚ := 7/10

/-- `LIQUIDITY_WARNING_CONTRACTS` from config.py. -/
def LIQUIDITY_WARNING_CONTRACTS : ℕ := 5

/-- `DTE_SHORT_WARNING` from config.py. -/
def DTE_SHORT_WARNING : ℤ := 7

/-- `DTE_LONG_OPPORTUNITY` from config.py. -/
def DTE_LONG_OPPORTUNITY : ℤ := 60

/-- `OI_CONCENTRATION_WARNING` from config.py. -/
def OI_CONCENTRATION_WARNING : ℚ := 30/100

/-- `UNUSUAL_VOLUME_RATIO` from config.py. -/
def UNUSUAL_VOLUME_RATIO : ℚ := 3

/-- `IV_SKEW_SIGNIFICANT` from config.py. -/
def IV_SKEW_SIGNIFICANT : ℚ := 10

/-- Body of `RiskEngine._assess_iv` once the primary side (`calls or
puts`) is fixed; returns (appended warnings, appended opportunities). -/
def assessIvOn (primary : ChainAnalysis) : List String × List String :=
  let avg := primary.avg_implied_volatility
  if IV_HIGH_THRESHOLD < avg then
    (["High implied volatility (" ++ formatFixed avg 1 ++
        "%) - options are expensive, consider selling strategies or spreads"], [])
  else if avg < IV_LOW_THRESHOLD then
    ([], ["Low implied volatility (" ++ formatFixed avg 1 ++
        "%) - options are cheap, consider buying strategies"])
  else ([], [])

/-- `RiskEngine._assess_iv`: calls IV is primary, falling back to puts. -/
def assess_iv (calls puts : Option ChainAnalysis) : List String × List String :=
  match calls with
  | some c => assessIvOn c
  | none =>
      match puts with
      | some p => assessIvOn p
      | none => ([], [])

/-- `RiskEngine._assess_pcr`: the source formats the ratio with two
decimal places (`:.2f`). -/
def assess_pcr (pcr : Option PutCallRatio) : List String × List String :=
  match pcr with
  | none => ([], [])
  | some r =>
      match r.volume with
      | none => ([], [])
      | some v =>
          if PCR_BEARISH_THRESHOLD < v then
            (["High Put/Call Volume Ratio (" ++ formatFixed v 2 ++
                ") - bearish sentiment, heavy put buying"], [])
          else if v < PCR_BULLISH_THRESHOLD then
            ([], ["Low Put/Call Volume Ratio (" ++ formatFixed v 2 ++
                ") - bullish sentiment, heavy call buying"])
          else ([], [])

/-- `RiskEngine._assess_liquidity` (warnings only). -/
def assess_liquidity (calls puts : Option ChainAnalysis) : List String :=
  (match calls with
   | some c =>
       if c.liquid_contracts < LIQUIDITY_WARNING_CONTRACTS then
         ["Low liquidity in calls (" ++ Nat.repr c.liquid_contracts ++
           " liquid contracts) - wide bid-ask spreads likely"]
       else []
   | none => []) ++
  (match puts with
   | some p =>
       if p.liquid_contracts < LIQUIDITY_WARNING_CONTRACTS then
         ["Low liquidity in puts (" ++ Nat.repr p.liquid_contracts ++
           " liquid contracts) - wide bid-ask spreads likely"]
       else []
   | none => [])

/-- `RiskEngine._assess_dte`: the source interpolates the integer day
count directly (`f"{dte} days"`). -/
def assess_dte (dte : ℤ) : List String × List String :=
  if dte < DTE_SHORT_WARNING then
    (["Short time to expiration (" ++ intStr dte ++
        " days) - high theta decay, rapid price movement needed"], [])
  else if DTE_LONG_OPPORTUNITY < dte then
    ([], ["Long time to expiration (" ++ intStr dte ++
        " days) - lower theta decay, suitable for longer-term positions"])
  else ([], [])

/-- `RiskEngine._assess_iv_skew`. -/
def assess_iv_skew (calls puts : Option ChainAnalysis) :
    List String × List String :=
  match calls, puts with
  | some c, some p =>
      match c.atm_iv, p.atm_iv with
      | some civ, some piv =>
          let skew := piv - civ
          if IV_SKEW_SIGNIFICANT < |skew| then
            if 0 < skew then
              (["Significant put skew (" ++ formatFixed skew 1 ++
                  "pp) - demand for downside protection elevated"], [])
            else
              ([], ["Significant call skew (" ++ formatFixed |skew| 1 ++
                  "pp) - upside positioning favored by options market"])
          else ([], [])
      | _, _ => ([], [])
  | _, _ => ([], [])

/-- One side of `RiskEngine._assess_oi_concentration`: the source formats
the strike with `:.0f` and the concentration with `:.0%` (whole percent). -/
def oiConcentrationSide (chain : Option ChainAnalysis) (label : String) :
    List String :=
  match chain with
  | none => []
  | some c =>
      if c.total_open_interest = 0 then []
      else
        match c.top_oi_strikes with
        | [] => []
        | t :: _ =>
            let concentration := (t.open_interest : ℚ) / (c.total_open_interest : ℚ)
            if OI_CONCENTRATION_WARNING < concentration then
              ["High OI concentration in " ++ label ++ " at $" ++
                formatFixed t.strike 0 ++ " strike (" ++
                formatFixed (concentration * 100) 0 ++
                "% of total) - potential pin risk"]
            else []

/-- `RiskEngine._assess_oi_concentration` (warnings only). -/
def assess_oi_concentration (calls puts : Option ChainAnalysis) : List String :=
  oiConcentrationSide calls "calls" ++ oiConcentrationSide puts "puts"

/-- One side of `RiskEngine._assess_unusual_activity` (opportunities
only); skipped when the side is absent or its total OI is zero. -/
def unusualActivitySide (chain : Option ChainAnalysis) (label : String) :
    List String :=
  match chain with
  | none => []
  | some c =>
      if c.total_open_interest = 0 then []
      else
        let vol_oi_ratio := (c.total_volume : ℚ) / (c.total_open_interest : ℚ)
        if UNUSUAL_VOLUME_RATIO < vol_oi_ratio then
          ["Unusual " ++ label ++ " activity - volume/OI ratio " ++
            formatFixed vol_oi_ratio 1 ++ "x suggests new positioning"]
        else []

/-- `RiskEngine._assess_unusual_activity`. -/
def assess_unusual_activity (calls puts : Option ChainAnalysis) : List String :=
  unusualActivitySide calls "calls" ++ unusualActivitySide puts "puts"

/-- `RiskEngine.assess`: runs the seven checks in source order, each
appending to the shared warnings/opportunities lists. -/
def assess (calls puts : Option ChainAnalysis) (pcr : Option PutCallRatio)
    (dte : ℤ) : List String × List String :=
  let iv := assess_iv calls puts
  let pc := assess_pcr pcr
  let liq := assess_liquidity calls puts
  let dt := assess_dte dte
  let skew := assess_iv_skew calls puts
  let oi := assess_oi_concentration calls puts
  let unusual := assess_unusual_activity calls puts
  (iv.1 ++ pc.1 ++ liq ++ dt.1 ++ skew.1 ++ oi,
    iv.2 ++ pc.2 ++ dt.2 ++ skew.2 ++ unusual)

/-- Numeric value of a digit list (most significant first). -/
def digitsToNat (s : List Char) : ℕ :=
  s.foldl (fun n c => n * 10 + (c.toNat - 48)) 0

/-- CPython strptime directive %Y: exactly four digits. -/
def parseYear (s : List Char) : Option ℕ :=
  if s.length = 4 ∧ s.all Char.isDigit then some (digitsToNat s) else none

/-- CPython strptime directive %m: the regex 1[0-2]|0[1-9]|[1-9], i.e. one
or two digits whose value is 1..12. -/
def parseMonth (s : List Char) : Option ℕ :=
  if (s.length = 1 ∨ s.length = 2) ∧ s.all Char.isDigit then
    let m := digitsToNat s
    if 1 ≤ m ∧ m ≤ 12 then some m else none
  else none

/-- CPython strptime directive %d: the regex
3[01]|[1-2]\d|0[1-9]|[1-9]| [1-9] (two digits valued 1..31, one nonzero
digit, or a space-padded nonzero digit). -/
def parseDay (s : List Char) : Option ℕ :=
  match s with
  | [c] => if c.isDigit ∧ c ≠ '0' then some (c.toNat - 48) else none
  | [' ', c] => if c.isDigit ∧ c ≠ '0' then some (c.toNat - 48) else none
  | [c1, c2] =>
      if c1.isDigit ∧ c2.isDigit then
        let d := digitsToNat [c1, c2]
        if 1 ≤ d ∧ d ≤ 31 then some d else none
      else none
  | _ => none

/-- Gregorian leap-year rule (as `datetime.date`). -/
def isLeapYear (y : ℕ) : Bool :=
  (y % 4 = 0 ∧ y % 100 ≠ 0) ∨ y % 400 = 0

/-- Length of a month (as `datetime.date`). -/
def daysInMonth (y m : ℕ) : ℕ :=
  if m = 2 then (if isLeapYear y then 29 else 28)
  else if m = 4 ∨ m = 6 ∨ m = 9 ∨ m = 11 then 30
  else 31

/-- Split a character list on the dash separator (`"%Y-%m-%d"` has literal
dashes between the directives). -/
def splitOnDash : List Char → List (List Char)
  | [] => [[]]
  | c :: cs =>
      let r := splitOnDash cs
      if c = '-' then [] :: r
      else
        match r with
        | [] => [[c]]
        | g :: gs => (c :: g) :: gs

/-- `datetime.strptime(s, "%Y-%m-%d").date()`: parse and validate a
calendar date, `none` on `ValueError`.  `datetime.date` also requires the
year to be at least 1. -/
def parseDate (s : String) : Option (ℕ × ℕ × ℕ) :=
  match splitOnDash s.data with
  | [ys, ms, ds] => do
      let y ← parseYear ys
      let m ← parseMonth ms
      let d ← parseDay ds
      if 1 ≤ y ∧ d ≤ daysInMonth y m then some (y, m, d) else none
  | _ => none

/-- Days in the months strictly before month `m` of year `y`. -/
def daysBeforeMonth (y m : ℕ) : ℕ :=
  ((List.range (m - 1)).map (fun i => daysInMonth y (i + 1))).sum

/-- Proleptic-Gregorian day count of a date (`datetime.date.toordinal`):
subtracting two of these gives `(d2 - d1).days`. -/
def dayNumber (ymd : ℕ × ℕ × ℕ) : ℤ :=
  let y := ymd.1
  let m := ymd.2.1
  let d := ymd.2.2
  365 * ((y : ℤ) - 1) + ((y : ℤ) - 1) / 4 - ((y : ℤ) - 1) / 100 +
    ((y : ℤ) - 1) / 400 + (daysBeforeMonth y m : ℤ) + (d : ℤ)

/-- The loop predicate of `select_expiration`: the entry parses as a date
and its day-granularity days-to-expiration from today meets the floor
(a `ValueError` row is skipped by the `continue`). -/
def dteOk (today min_dte : ℤ) (e : String) : Bool :=
  match parseDate e with
  | some ymd => min_dte ≤ dayNumber ymd - today
  | none => false

/-- The auto-selection scan of `ChainAnalyzer.select_expiration`: first
entry meeting the DTE floor, else the last entry (the source indexes
`expirations[-1]`, so an empty sequence is the caller's error, `none`
here). -/
def selectExpirationAuto (expirations : List String) (today min_dte : ℤ) :
    Option String :=
  match expirations.find? (dteOk today min_dte) with
  | some e => some e
  | none => expirations.getLast?

/-- `ChainAnalyzer.select_expiration(expirations, requested, symbol,
min_dte)` with "today" made explicit (the source reads
`datetime.now().date()`); `symbol` is only used for logging.  A requested
date is honoured when it is truthy (a non-empty string) and present. -/
def select_expiration (expirations : List String) (requested : Option String)
    (symbol : String) (min_dte : ℤ) (today : ℤ) : Option String :=
  let _ := symbol
  match requested with
  | some r =>
      if r != "" && expirations.contains r then some r
      else selectExpirationAuto expirations today min_dte
  | none => selectExpirationAuto expirations today min_dte

example : parseDate "2025-01-10" = some (2025, 1, 10) := by decide

example : parseDate "2025-02-30" = none := by decide

example : parseDate "2024-02-29" = some (2024, 2, 29) := by decide

example : parseDate "" = none := by decide

example : dayNumber (2025, 2, 7) - dayNumber (2025, 1, 10) = 28 := by decide

example :
    select_expiration ["2025-01-10", "2025-02-07"] none "AAPL" 7
      (dayNumber (2025, 1, 7)) = some "2025-02-07" := by decide

example :
    select_expiration ["2025-01-10", "2025-02-07"] (some "2025-01-10") "AAPL" 7
      (dayNumber (2025, 1, 7)) = some "2025-01-10" := by decide

example :
    select_expiration ["2025-01-08", "2025-01-10"] none "AAPL" 7
      (dayNumber (2025, 1, 7)) = some "2025-01-10" := by decide

example : formatFixed 2 2 = "2.00" := by decide

example : formatFixed (75/10) 1 = "7.5" := by decide

example : formatFixed (105:ℚ) 0 = "105" := by decide

example : formatFixed (35/100 * 100) 0 ++ "%" = "35%" := by decide

example : intStr (-3) = "-3" := by decide

example :
    assess_dte 3 =
      (["Short time to expiration (3 days) - high theta decay, rapid price movement needed"],
        []) := by decide

example :
    assess_pcr (some ⟨some 2, none⟩) =
      (["High Put/Call Volume Ratio (2.00) - bearish sentiment, heavy put buying"],
        []) := by decide

example : strContains "bull_put_credit" "put" = true := by decide

example : strContains "bear_call_credit" "put" = false := by decide

example : strToLower "Bull_Put_Credit" = "bull_put_credit" := by decide

example :
    ((analyze_spread_trade "bull_put_credit" "open" 96 100 1 none
        ⟨some (70/100), some (80/100), none, none⟩
        ⟨some 2, some (210/100), none, none⟩).toOption.map
      (fun r => (r.net_premium, r.max_profit, r.max_loss, r.breakeven)))
      = some (120/100, 120, 280, 100 - 120/100) := by decide

example :
    VehicleSelector.select Timeframe.swing VolatilityRegime.medium Bias.bullish 5
      = { vehicle := Vehicle.option_call
          dte_range := some (30, 45)
          delta_range := some (40/100, 60/100)
          expected_move_percent := some 5 } := by decide

/-- The five-row chain the specification uses as its worked example
(strikes 95..115, volumes 50/200/500/150/30). -/
def exampleRows : List OptionRow :=
  [⟨95, some 50, some 10, 45/100, none⟩,
   ⟨100, some 200, some 20, 35/100, none⟩,
   ⟨105, some 500, some 30, 30/100, some (1/2)⟩,
   ⟨110, some 150, some 40, 32/100, none⟩,
   ⟨115, some 30, some 50, 40/100, none⟩]

example :
    analyze_chain exampleRows 106 75 "calls"
      = some
        { total_contracts := 5
          liquid_contracts := 3
          total_volume := 930
          total_open_interest := 150
          avg_implied_volatility := 182/5
          max_iv := 45
          min_iv := 30
          atm_strike := some 105
          atm_iv := some 30
          atm_delta := some (1/2)
          top_volume_strikes :=
            [⟨105, 500, 30⟩, ⟨100, 200, 35⟩, ⟨110, 150, 32⟩]
          top_oi_strikes :=
            [⟨110, 40, 32⟩, ⟨105, 30, 30⟩, ⟨100, 20, 35⟩] } := by
  decide

/-- Claim C4: analyze_chain applied to an empty chain returns the absent
marker (none), never a zero-valued ChainAnalysis; conversely a present
analysis can only come from a non-empty chain, so callers can distinguish
"no data" from a valid zero-count analysis. -/
theorem analyze_chain_empty_absent (current_price : ℚ) (min_volume : ℕ)
    (chain_type : String) :
    analyze_chain [] current_price min_volume chain_type = none ∧
    ∀ (rows : List OptionRow) (a : ChainAnalysis),
      analyze_chain rows current_price min_volume chain_type = some a →
        rows ≠ [] := by
  refine ⟨rfl, ?_⟩
  intro rows a h hr
  subst hr
  simp [analyze_chain] at h

/-- Witness for C4 at a concrete input: the empty chain yields none while a
one-row chain yields a present analysis. -/
theorem analyze_chain_empty_absent_witness :
    analyze_chain [] 100 75 "calls" = none ∧
    ([(⟨1, none, none, 0, none⟩ : OptionRow)] : List OptionRow) ≠ [] := by
  refine ⟨(analyze_chain_empty_absent 100 75 "calls").1, ?_⟩
  exact (analyze_chain_empty_absent 100 75 "calls").2
    [⟨1, none, none, 0, none⟩] ⟨1, 0, 0, 0, 0, 0, 0, none, none, none, [], []⟩
    (by decide)

/-- Claim C10: the whole-chain aggregates reported by analyze_chain
(total contracts, total volume, total open interest and the avg/max/min
implied-volatility statistics) are identical for any two min_volume
thresholds: they are computed over all input rows, liquid or not. -/
theorem analyze_chain_aggregates_threshold_free (rows : List OptionRow)
    (current_price : ℚ) (mv₁ mv₂ : ℕ) (ct : String) :
    ((analyze_chain rows current_price mv₁ ct).map (fun a => a.total_contracts)
        = (analyze_chain rows current_price mv₂ ct).map (fun a => a.total_contracts)) ∧
    ((analyze_chain rows current_price mv₁ ct).map (fun a => a.total_volume)
        = (analyze_chain rows current_price mv₂ ct).map (fun a => a.total_volume)) ∧
    ((analyze_chain rows current_price mv₁ ct).map (fun a => a.total_open_interest)
        = (analyze_chain rows current_price mv₂ ct).map (fun a => a.total_open_interest)) ∧
    ((analyze_chain rows current_price mv₁ ct).map (fun a => a.avg_implied_volatility)
        = (analyze_chain rows current_price mv₂ ct).map (fun a => a.avg_implied_volatility)) ∧
    ((analyze_chain rows current_price mv₁ ct).map (fun a => a.max_iv)
        = (analyze_chain rows current_price mv₂ ct).map (fun a => a.max_iv)) ∧
    ((analyze_chain rows current_price mv₁ ct).map (fun a => a.min_iv)
        = (analyze_chain rows current_price mv₂ ct).map (fun a => a.min_iv)) := by
  cases rows <;> simp [analyze_chain]

/-- Claim C6: the put/call ratio object is absent when either side analysis
is absent; when both are present, the volume ratio is none exactly when the
calls-side total volume is zero and is put volume / call volume otherwise,
and independently the open-interest ratio is none exactly when the
calls-side total open interest is zero and is put OI / call OI otherwise.
Never zero, infinity, or a default. -/
theorem compute_pcr_spec :
    (∀ p, compute_pcr none p = none) ∧
    (∀ c, compute_pcr c none = none) ∧
    (∀ c p, compute_pcr (some c) (some p) =
      some
        { volume :=
            if c.total_volume = 0 then none
            else some ((p.total_volume : ℚ) / (c.total_volume : ℚ))
          open_interest :=
            if c.total_open_interest = 0 then none
            else some ((p.total_open_interest : ℚ) / (c.total_open_interest : ℚ)) }) := by
  refine ⟨fun p => rfl, fun c => ?_, fun c p => ?_⟩
  · cases c <;> rfl
  · cases hv : c.total_volume <;> cases ho : c.total_open_interest <;>
      simp [compute_pcr, hv, ho]

/-- The vehicle-selection decision tree exactly as the specification words
it (first match wins): non-swing timeframe is stock; expected move below
3.0 percent is stock; MEDIUM volatility is a directional call/put with DTE
range (30,45) and delta range (0.40,0.60) for calls or (-0.60,-0.40) for
puts; HIGH volatility is a spread (bull-call designation when bullish,
bear-put when bearish) with DTE range (30,45); anything else is stock. -/
def vehicleSelectSpec (timeframe : Timeframe)
    (volatility_regime : VolatilityRegime) (bias : Bias)
    (expected_move_percent : ℚ) : VehicleRecommendation :=
  if timeframe ≠ Timeframe.swing then
    { vehicle := Vehicle.stock }
  else if expected_move_percent < 3 then
    { vehicle := Vehicle.stock
      expected_move_percent := some expected_move_percent }
  else if volatility_regime = VolatilityRegime.medium then
    if bias = Bias.bullish then
      { vehicle := Vehicle.option_call
        dte_range := some (30, 45)
        delta_range := some (40/100, 60/100)
        expected_move_percent := some expected_move_percent }
    else
      { vehicle := Vehicle.option_put
        dte_range := some (30, 45)
        delta_range := some (-(60/100), -(40/100))
        expected_move_percent := some expected_move_percent }
  else if volatility_regime = VolatilityRegime.high then
    { vehicle := Vehicle.option_spread
      dte_range := some (30, 45)
      delta_range :=
        some (if bias = Bias.bullish then (40/100, 60/100)
              else (-(60/100), -(40/100)))
      spread_type :=
        some (if bias = Bias.bullish then "Bull Call Spread" else "Bear Put Spread")
      expected_move_percent := some expected_move_percent }
  else
    { vehicle := Vehicle.stock
      expected_move_percent := some expected_move_percent }

/-- Claim C7: VehicleSelector.select implements the ordered decision tree
stated by the specification (first match wins), and every stock
recommendation carries no DTE range and no delta range (unset, not
zero-width). -/
theorem vehicle_select_spec (timeframe : Timeframe)
    (volatility_regime : VolatilityRegime) (bias : Bias)
    (expected_move_percent : ℚ) :
    VehicleSelector.select timeframe volatility_regime bias expected_move_percent
      = vehicleSelectSpec timeframe volatility_regime bias expected_move_percent ∧
    ((VehicleSelector.select timeframe volatility_regime bias
        expected_move_percent).vehicle = Vehicle.stock →
      (VehicleSelector.select timeframe volatility_regime bias
          expected_move_percent).dte_range = none ∧
      (VehicleSelector.select timeframe volatility_regime bias
          expected_move_percent).delta_range = none) := by
  cases timeframe <;> cases volatility_regime <;> cases bias <;>
    by_cases h : expected_move_percent < 3 <;>
      simp [VehicleSelector.select, vehicleSelectSpec, OPTION_MIN_EXPECTED_MOVE,
        OPTION_SWING_MIN_DTE, OPTION_SWING_MAX_DTE, OPTION_CALL_DELTA_MIN,
        OPTION_CALL_DELTA_MAX, OPTION_PUT_DELTA_MIN, OPTION_PUT_DELTA_MAX, h]

/-- Witness for C7 at concrete inputs: a DAY-timeframe request yields stock
with no DTE/delta ranges, and a swing/medium/bullish request matches the
spec tree (an OPTION_CALL with DTE range (30,45)). -/
theorem vehicle_select_spec_witness :
    (VehicleSelector.select Timeframe.day VolatilityRegime.medium Bias.bullish 5
        = vehicleSelectSpec Timeframe.day VolatilityRegime.medium Bias.bullish 5) ∧
    ((VehicleSelector.select Timeframe.day VolatilityRegime.medium Bias.bullish 5).dte_range
        = none ∧
      (VehicleSelector.select Timeframe.day VolatilityRegime.medium Bias.bullish 5).delta_range
        = none) ∧
    (VehicleSelector.select Timeframe.swing VolatilityRegime.medium Bias.bullish 5
        = vehicleSelectSpec Timeframe.swing VolatilityRegime.medium Bias.bullish 5) :=
  ⟨(vehicle_select_spec Timeframe.day VolatilityRegime.medium Bias.bullish 5).1,
    (vehicle_select_spec Timeframe.day VolatilityRegime.medium Bias.bullish 5).2
      (by decide),
    (vehicle_select_spec Timeframe.swing VolatilityRegime.medium Bias.bullish 5).1⟩

/-- Counterexample for claim C1: for a bull put credit spread with buy
strike 100, sell strike 102 (width 2), one contract, sell bid 5 and buy
ask 1 (net credit 4), the claim computes max loss
(width - credit) * 100 * contracts = -200, but the code reports the
absolute value 200. -/
theorem spread_max_loss_abs_counterexample :
    ((analyze_spread_trade "bull_put_credit" "open" 100 102 1 none
        ⟨some 1, some 1, none, none⟩ ⟨some 5, some 5, none, none⟩).toOption.map
      (fun r => r.max_loss)) = some 200 ∧
    ((|(102 : ℚ) - 100| - ((5 : ℚ) - 1)) * 100 * 1 : ℚ) = -200 ∧
    (200 : ℚ) ≠ -200 := by
  refine ⟨by decide, by decide, by decide⟩

/-- Claim C1 (amended): for legs with present bid/ask, the spread
economics are as claimed except that the reported max loss is the absolute
value of the claimed quantity.  Credit spreads (bull_put_credit,
bear_call_credit): net credit = sell.bid - buy.ask, max profit =
credit * 100 * contracts, max loss = |(width - credit) * 100 * contracts|,
breakeven = sell_strike - credit for puts and sell_strike + credit for
calls.  Debit spreads (bull_call, bear_put): net debit =
buy.ask - sell.bid, max loss = |debit * 100 * contracts|, max profit =
(width - debit) * 100 * contracts, breakeven = buy_strike + debit for
calls and buy_strike - debit for puts, with width =
|sell_strike - buy_strike|. -/
theorem spread_economics (action : String) (buy_strike sell_strike : ℚ)
    (contracts : ℕ) (entry_price : Option ℚ) (buy_leg sell_leg : OptionLeg)
    (bb ba sb sa : ℚ)
    (hbb : buy_leg.bid = some bb) (hba : buy_leg.ask = some ba)
    (hsb : sell_leg.bid = some sb) (hsa : sell_leg.ask = some sa) :
    (((analyze_spread_trade "bull_put_credit" action buy_strike sell_strike
          contracts entry_price buy_leg sell_leg).toOption.map
        (fun r => (r.net_premium, r.max_profit, r.max_loss, r.breakeven)))
      = some (sb - ba, (sb - ba) * 100 * (contracts : ℚ),
          |(|sell_strike - buy_strike| - (sb - ba)) * 100 * (contracts : ℚ)|,
          sell_strike - (sb - ba))) ∧
    (((analyze_spread_trade "bear_call_credit" action buy_strike sell_strike
          contracts entry_price buy_leg sell_leg).toOption.map
        (fun r => (r.net_premium, r.max_profit, r.max_loss, r.breakeven)))
      = some (sb - ba, (sb - ba) * 100 * (contracts : ℚ),
          |(|sell_strike - buy_strike| - (sb - ba)) * 100 * (contracts : ℚ)|,
          sell_strike + (sb - ba))) ∧
    (((analyze_spread_trade "bull_call" action buy_strike sell_strike
          contracts entry_price buy_leg sell_leg).toOption.map
        (fun r => (r.net_premium, r.max_profit, r.max_loss, r.breakeven)))
      = some (ba - sb,
          (|sell_strike - buy_strike| - (ba - sb)) * 100 * (contracts : ℚ),
          |(ba - sb) * 100 * (contracts : ℚ)|,
          buy_strike + (ba - sb))) ∧
    (((analyze_spread_trade "bear_put" action buy_strike sell_strike
          contracts entry_price buy_leg sell_leg).toOption.map
        (fun r => (r.net_premium, r.max_profit, r.max_loss, r.breakeven)))
      = some (ba - sb,
          (|sell_strike - buy_strike| - (ba - sb)) * 100 * (contracts : ℚ),
          |(ba - sb) * 100 * (contracts : ℚ)|,
          buy_strike - (ba - sb))) := by
  obtain ⟨b1, b2, b3, b4⟩ := buy_leg
  obtain ⟨s1, s2, s3, s4⟩ := sell_leg
  dsimp only at hbb hba hsb hsa
  subst hbb hba hsb hsa
  exact ⟨rfl, rfl, rfl, rfl⟩

/-- Witness for C1 (amended) at the specification's worked numbers: a
credit spread with sell.bid = 2.00, buy.ask = 0.80, strikes 96/100
(width 4) and one contract has net credit 1.20, max profit 120, max loss
280 and breakeven 98.80. -/
theorem spread_economics_witness :
    ((analyze_spread_trade "bull_put_credit" "open" 96 100 1 none
        (⟨some (70/100), some (80/100), none, none⟩ : OptionLeg)
        (⟨some 2, some (210/100), none, none⟩ : OptionLeg)).toOption.map
      (fun r => (r.net_premium, r.max_profit, r.max_loss, r.breakeven)))
      = some (2 - 80/100, (2 - 80/100) * 100 * ((1 : ℕ) : ℚ),
          |(|(100 : ℚ) - 96| - (2 - 80/100)) * 100 * ((1 : ℕ) : ℚ)|,
          100 - (2 - 80/100)) :=
  (spread_economics "open" 96 100 1 none
      ⟨some (70/100), some (80/100), none, none⟩
      ⟨some 2, some (210/100), none, none⟩
      (70/100) (80/100) 2 (210/100) rfl rfl rfl rfl).1

/-- Claim C9: for a close action with a provided entry price (and legs
with present bid/ask), the current spread value uses the opposite side of
the bid/ask spread (sell.ask - buy.bid for the two credit types,
buy.bid - sell.ask for the two debit types), P&L per spread is
entry - current for credit and current - entry for debit, total P&L is
per-spread * 100 * contracts, and the percent is
per-spread / entry * 100 guarded so that entry = 0 reports 0 instead of
dividing. -/
theorem spread_close_pnl (buy_strike sell_strike : ℚ) (contracts : ℕ)
    (e : ℚ) (buy_leg sell_leg : OptionLeg) (bb ba sb sa : ℚ)
    (hbb : buy_leg.bid = some bb) (hba : buy_leg.ask = some ba)
    (hsb : sell_leg.bid = some sb) (hsa : sell_leg.ask = some sa) :
    (((analyze_spread_trade "bull_put_credit" "close" buy_strike sell_strike
          contracts (some e) buy_leg sell_leg).toOption.map
        (fun r => r.close_analysis))
      = some (some
          { entry_price := e
            current_value := sa - bb
            pnl_per_spread := e - (sa - bb)
            total_pnl := (e - (sa - bb)) * 100 * (contracts : ℚ)
            pnl_percent := if e ≠ 0 then (e - (sa - bb)) / e * 100 else 0 })) ∧
    (((analyze_spread_trade "bear_call_credit" "close" buy_strike sell_strike
          contracts (some e) buy_leg sell_leg).toOption.map
        (fun r => r.close_analysis))
      = some (some
          { entry_price := e
            current_value := sa - bb
            pnl_per_spread := e - (sa - bb)
            total_pnl := (e - (sa - bb)) * 100 * (contracts : ℚ)
            pnl_percent := if e ≠ 0 then (e - (sa - bb)) / e * 100 else 0 })) ∧
    (((analyze_spread_trade "bull_call" "close" buy_strike sell_strike
          contracts (some e) buy_leg sell_leg).toOption.map
        (fun r => r.close_analysis))
      = some (some
          { entry_price := e
            current_value := bb - sa
            pnl_per_spread := (bb - sa) - e
            total_pnl := ((bb - sa) - e) * 100 * (contracts : ℚ)
            pnl_percent := if e ≠ 0 then ((bb - sa) - e) / e * 100 else 0 })) ∧
    (((analyze_spread_trade "bear_put" "close" buy_strike sell_strike
          contracts (some e) buy_leg sell_leg).toOption.map
        (fun r => r.close_analysis))
      = some (some
          { entry_price := e
            current_value := bb - sa
            pnl_per_spread := (bb - sa) - e
            total_pnl := ((bb - sa) - e) * 100 * (contracts : ℚ)
            pnl_percent := if e ≠ 0 then ((bb - sa) - e) / e * 100 else 0 })) := by
  obtain ⟨b1, b2, b3, b4⟩ := buy_leg
  obtain ⟨s1, s2, s3, s4⟩ := sell_leg
  dsimp only at hbb hba hsb hsa
  subst hbb hba hsb hsa
  exact ⟨rfl, rfl, rfl, rfl⟩

/-- Witness for C9 at concrete numbers, including the entry_price = 0
guard: closing a 1-contract credit spread entered at 1.50 whose current
opposite-side value is 0.90 yields P&L 0.60 per spread, 60 total and 40
percent; with entry 0 the percent is reported as 0. -/
theorem spread_close_pnl_witness :
    (((analyze_spread_trade "bull_put_credit" "close" 96 100 1 (some (150/100))
          (⟨some (40/100), some (50/100), none, none⟩ : OptionLeg)
          (⟨some (120/100), some (130/100), none, none⟩ : OptionLeg)).toOption.map
        (fun r => r.close_analysis))
      = some (some
          { entry_price := 150/100
            current_value := 130/100 - 40/100
            pnl_per_spread := 150/100 - (130/100 - 40/100)
            total_pnl := (150/100 - (130/100 - 40/100)) * 100 * ((1 : ℕ) : ℚ)
            pnl_percent :=
              if (150/100 : ℚ) ≠ 0 then
                (150/100 - (130/100 - 40/100)) / (150/100) * 100
              else 0 })) ∧
    (((analyze_spread_trade "bull_put_credit" "close" 96 100 1 (some 0)
          (⟨some (40/100), some (50/100), none, none⟩ : OptionLeg)
          (⟨some (120/100), some (130/100), none, none⟩ : OptionLeg)).toOption.map
        (fun r => r.close_analysis))
      = some (some
          { entry_price := 0
            current_value := 130/100 - 40/100
            pnl_per_spread := 0 - (130/100 - 40/100)
            total_pnl := (0 - (130/100 - 40/100)) * 100 * ((1 : ℕ) : ℚ)
            pnl_percent :=
              if (0 : ℚ) ≠ 0 then (0 - (130/100 - 40/100)) / 0 * 100
              else 0 })) :=
  ⟨(spread_close_pnl 96 100 1 (150/100)
      ⟨some (40/100), some (50/100), none, none⟩
      ⟨some (120/100), some (130/100), none, none⟩
      (40/100) (50/100) (120/100) (130/100) rfl rfl rfl rfl).1,
    (spread_close_pnl 96 100 1 0
      ⟨some (40/100), some (50/100), none, none⟩
      ⟨some (120/100), some (130/100), none, none⟩
      (40/100) (50/100) (120/100) (130/100) rfl rfl rfl rfl).1⟩

/-- The empty string is not a parseable date (so a date string present in a
chain of parseable expirations is never falsy in the Python sense). -/
theorem parseDate_empty_none : parseDate "" = none := by decide

/-- A decomposition with all-failing prefix pins down `find?`. -/
theorem find?_of_decomp (p : String → Bool) :
    ∀ (l₁ : List String) (e : String) (l₂ : List String),
      (∀ x ∈ l₁, p x = false) → p e = true →
      (l₁ ++ e :: l₂).find? p = some e := by
  intro l₁
  induction l₁ with
  | nil =>
      intro e l₂ _ hp
      simpa using List.find?_cons_of_pos l₂ hp
  | cons a as ih =>
      intro e l₂ hall hp
      have ha : ¬ p a = true := by
        simp [hall a (by simp)]
      have := List.find?_cons_of_neg (as ++ e :: l₂) ha
      simpa [this] using ih e l₂ (fun x hx => hall x (by simp [hx])) hp

/-- Claim C2: select_expiration returns the requested date verbatim
whenever it appears in the (parseable) expiration sequence, even if it is
below the min_dte floor; otherwise it returns the first entry, in the
given nearest-first order, whose day-granularity DTE from today meets the
floor; and when no entry meets the floor it returns the last entry instead
of failing. -/
theorem select_expiration_spec (expirations : List String)
    (requested : Option String) (symbol : String) (min_dte today : ℤ)
    (hne : expirations ≠ [])
    (hparse : ∀ e ∈ expirations, (parseDate e).isSome) :
    (∀ r, requested = some r → r ∈ expirations →
        select_expiration expirations requested symbol min_dte today = some r) ∧
    ((∀ r, requested = some r → r ∉ expirations) →
        (∀ (l₁ : List String) (e : String) (l₂ : List String),
            expirations = l₁ ++ e :: l₂ →
            (∀ x ∈ l₁, dteOk today min_dte x = false) →
            dteOk today min_dte e = true →
            select_expiration expirations requested symbol min_dte today
              = some e) ∧
        ((∀ e ∈ expirations, dteOk today min_dte e = false) →
            select_expiration expirations requested symbol min_dte today
              = some (expirations.getLast hne))) := by
  constructor
  · intro r hreq hmem
    subst hreq
    have hr0 : r ≠ "" := by
      intro h0
      subst h0
      have h := hparse "" hmem
      rw [parseDate_empty_none] at h
      simp at h
    have hcond : (r != "" && expirations.contains r) = true := by
      rw [Bool.and_eq_true]
      exact ⟨bne_iff_ne.mpr hr0, List.elem_eq_true_of_mem hmem⟩
    simp only [select_expiration]
    rw [hcond]
    simp
  · intro hnotin
    have hauto :
        select_expiration expirations requested symbol min_dte today
          = selectExpirationAuto expirations today min_dte := by
      match requested with
      | none => rfl
      | some r =>
          have hmem : expirations.contains r = false := by
            rcases h : expirations.contains r with _ | _
            · rfl
            · exact absurd (List.mem_of_elem_eq_true h) (hnotin r rfl)
          simp only [select_expiration]
          rw [hmem]
          simp
    constructor
    · intro l₁ e l₂ hdec hprefix hok
      rw [hauto, selectExpirationAuto, hdec,
        find?_of_decomp (dteOk today min_dte) l₁ e l₂ hprefix hok]
    · intro hall
      have hfind : expirations.find? (dteOk today min_dte) = none :=
        List.find?_eq_none.mpr (fun x hx => by simp [hall x hx])
      rw [hauto, selectExpirationAuto, hfind,
        List.getLast?_eq_getLast expirations hne]

/-- Witness for C2 at the specification's worked example: with expirations
3 and 31 days out and a floor of 7, auto-selection skips the near-term
entry and returns the second; explicitly requesting the near-term entry
overrides the floor; and when every entry is below the floor the last one
is returned. -/
theorem select_expiration_spec_witness :
    (select_expiration ["2025-01-10", "2025-02-07"] (some "2025-01-10") "AAPL" 7
        (dayNumber (2025, 1, 7)) = some "2025-01-10") ∧
    (select_expiration ["2025-01-10", "2025-02-07"] none "AAPL" 7
        (dayNumber (2025, 1, 7)) = some "2025-02-07") ∧
    (select_expiration ["2025-01-08", "2025-01-10"] none "AAPL" 7
        (dayNumber (2025, 1, 7))
      = some ((["2025-01-08", "2025-01-10"] : List String).getLast (by decide))) :=
  ⟨(select_expiration_spec ["2025-01-10", "2025-02-07"] (some "2025-01-10")
      "AAPL" 7 (dayNumber (2025, 1, 7)) (by decide) (by decide)).1
      "2025-01-10" rfl (by decide),
    ((select_expiration_spec ["2025-01-10", "2025-02-07"] none "AAPL" 7
        (dayNumber (2025, 1, 7)) (by decide) (by decide)).2 (by simp)).1
      ["2025-01-10"] "2025-02-07" [] rfl (by decide) (by decide),
    ((select_expiration_spec ["2025-01-08", "2025-01-10"] none "AAPL" 7
        (dayNumber (2025, 1, 7)) (by decide) (by decide)).2 (by simp)).2
      (by decide)⟩

/-- Closed form of analyze_chain on a non-empty chain, used to reason about
individual fields. -/
theorem analyze_chain_some (rows : List OptionRow) (p : ℚ) (mv : ℕ)
    (ct : String) (hne : rows ≠ []) :
    analyze_chain rows p mv ct = some
      { total_contracts := rows.length
        liquid_contracts := (liquidRows rows mv).length
        total_volume := (rows.map (fun r => r.volume.getD 0)).sum
        total_open_interest := (rows.map (fun r => r.openInterest.getD 0)).sum
        avg_implied_volatility :=
          (rows.map (fun r => r.impliedVolatility)).sum / (rows.length : ℚ) * 100
        max_iv := listMax (rows.map (fun r => r.impliedVolatility)) * 100
        min_iv := listMin (rows.map (fun r => r.impliedVolatility)) * 100
        atm_strike :=
          (argminFirst (fun q => |q.2.strike - p|) (liquidRows rows mv)).map
            (fun q => q.2.strike)
        atm_iv :=
          (argminFirst (fun q => |q.2.strike - p|) (liquidRows rows mv)).map
            (fun q => q.2.impliedVolatility * 100)
        atm_delta :=
          (argminFirst (fun q => |q.2.strike - p|) (liquidRows rows mv)).bind
            (fun q => q.2.delta)
        top_volume_strikes := top_by_volume (liquidRows rows mv)
        top_oi_strikes := top_by_oi (liquidRows rows mv) } := by
  cases rows with
  | nil => exact absurd rfl hne
  | cons r rs => rfl

/-- The fold inside argminFirst returns the first element of `b :: l`
attaining the minimum of `f`: there is a decomposition whose prefix is
strictly larger and the result is a lower bound for the whole list. -/
theorem foldl_min_first (f : α → ℚ) :
    ∀ (l : List α) (b : α),
      ∃ l₁ l₂,
        b :: l = l₁ ++ (l.foldl (fun acc y => if f y < f acc then y else acc) b) :: l₂ ∧
        (∀ x ∈ l₁,
          f (l.foldl (fun acc y => if f y < f acc then y else acc) b) < f x) ∧
        (∀ x ∈ b :: l,
          f (l.foldl (fun acc y => if f y < f acc then y else acc) b) ≤ f x) := by
  intro l
  induction l with
  | nil =>
      intro b
      exact ⟨[], [], rfl, by simp, by simp⟩
  | cons y ys ih =>
      intro b
      by_cases hy : f y < f b
      · have hfold :
            (y :: ys).foldl (fun acc z => if f z < f acc then z else acc) b
              = ys.foldl (fun acc z => if f z < f acc then z else acc) y := by
          simp [hy]
        obtain ⟨l₁, l₂, hdec, hlt, hmin⟩ := ih y
        rw [hfold]
        refine ⟨b :: l₁, l₂, ?_, ?_, ?_⟩
        · rw [List.cons_append, ← hdec]
        · intro x hx
          rcases List.mem_cons.mp hx with hxb | hxl
          · subst hxb
            exact lt_of_le_of_lt (hmin y (by simp)) hy
          · exact hlt x hxl
        · intro x hx
          rcases List.mem_cons.mp hx with hxb | hxl
          · subst hxb
            exact le_of_lt (lt_of_le_of_lt (hmin y (by simp)) hy)
          · exact hmin x hxl
      · have hfold :
            (y :: ys).foldl (fun acc z => if f z < f acc then z else acc) b
              = ys.foldl (fun acc z => if f z < f acc then z else acc) b := by
          simp [hy]
        obtain ⟨l₁, l₂, hdec, hlt, hmin⟩ := ih b
        rw [hfold]
        cases l₁ with
        | nil =>
            rw [List.nil_append, List.cons.injEq] at hdec
            obtain ⟨hb, hl2⟩ := hdec
            refine ⟨[], y :: l₂, ?_, by simp, ?_⟩
            · rw [List.nil_append, ← hb, ← hl2]
            · intro x hx
              rcases List.mem_cons.mp hx with hxb | hxl
              · subst hxb
                exact hmin _ (by simp)
              · rcases List.mem_cons.mp hxl with hxy | hxys
                · subst hxy
                  rw [← hb]
                  exact le_of_not_lt hy
                · exact hmin x (by simp [hxys])
        | cons a as =>
            rw [List.cons_append, List.cons.injEq] at hdec
            obtain ⟨hb, hys⟩ := hdec
            have hltb :
                f (ys.foldl (fun acc z => if f z < f acc then z else acc) b) < f b := by
              have := hlt a (by simp)
              rw [← hb] at this
              exact this
            refine ⟨b :: y :: as, l₂, ?_, ?_, ?_⟩
            · rw [List.cons_append, List.cons_append, ← hys]
            · intro x hx
              rcases List.mem_cons.mp hx with hxb | hxl
              · subst hxb
                exact hltb
              · rcases List.mem_cons.mp hxl with hxy | hxas
                · subst hxy
                  exact lt_of_lt_of_le hltb (le_of_not_lt hy)
                · exact hlt x (by simp [hxas])
            · intro x hx
              rcases List.mem_cons.mp hx with hxb | hxl
              · exact hmin x (by simp [hxb])
              · rcases List.mem_cons.mp hxl with hxy | hxys
                · subst hxy
                  exact le_of_lt (lt_of_lt_of_le hltb (le_of_not_lt hy))
                · exact hmin x (by simp [hxys])

/-- Two "first strict minimum" decompositions of the same list pick the
same element. -/
theorem first_min_unique (f : α → ℚ) :
    ∀ (l₁ l l₂ m₁ m₂ : List α) (x y : α),
      l = l₁ ++ x :: l₂ → l = m₁ ++ y :: m₂ →
      (∀ q ∈ l₁, f x < f q) → (∀ q ∈ l, f x ≤ f q) →
      (∀ q ∈ m₁, f y < f q) → (∀ q ∈ l, f y ≤ f q) → x = y := by
  intro l₁
  induction l₁ with
  | nil =>
      intro l l₂ m₁ m₂ x y h1 h2 _ hxmin hy1 hymin
      simp only [List.nil_append] at h1
      subst h1
      cases m₁ with
      | nil =>
          simp only [List.nil_append] at h2
          exact ((List.cons.injEq _ _ _ _).mp h2).1
      | cons a as =>
          have ha : x = a := ((List.cons.injEq _ _ _ _).mp h2).1
          have hyx : f y < f x := by
            have := hy1 a (by simp)
            rw [← ha] at this
            exact this
          have hxy : f x ≤ f y := by
            apply hxmin
            rw [h2]
            simp
          exact absurd hyx (not_lt_of_le hxy)
  | cons a as ih =>
      intro l l₂ m₁ m₂ x y h1 h2 hx1 hxmin hy1 hymin
      cases m₁ with
      | nil =>
          simp only [List.nil_append] at h2
          subst h2
          have ha : y = a := ((List.cons.injEq _ _ _ _).mp h1).1
          have hxy : f x < f y := by
            have := hx1 a (by simp)
            rw [← ha] at this
            exact this
          have hyx : f y ≤ f x := by
            apply hymin
            rw [h1]
            simp
          exact absurd hxy (not_lt_of_le hyx)
      | cons b bs =>
          have hmemtail : ∀ q ∈ as ++ x :: l₂, q ∈ l := by
            intro q hq
            rw [h1, List.cons_append]
            exact List.mem_cons_of_mem a hq
          rw [h2, List.cons_append, List.cons_append, List.cons.injEq] at h1
          obtain ⟨hba, htail⟩ := h1
          exact ih (as ++ x :: l₂) l₂ bs m₂ x y rfl htail.symm
            (fun q hq => hx1 q (by simp [hq]))
            (fun q hq => hxmin q (hmemtail q hq))
            (fun q hq => hy1 q (by simp [hq]))
            (fun q hq => hymin q (hmemtail q hq))

/-- Claim C3: whenever the liquid subset is non-empty, the ATM strike
reported by analyze_chain is the strike of the liquid row minimizing
|strike - current_price|, ties broken by first occurrence in input order
(the row q below is characterized as the first liquid row attaining the
minimum distance); and whenever the liquid subset is empty, atm_strike,
atm_iv and atm_delta are all unset, not zero. -/
theorem analyze_chain_atm_spec (rows : List OptionRow) (current_price : ℚ)
    (min_volume : ℕ) (ct : String) (hne : rows ≠ []) :
    (liquidRows rows min_volume = [] →
      (analyze_chain rows current_price min_volume ct).map (fun a => a.atm_strike)
          = some none ∧
      (analyze_chain rows current_price min_volume ct).map (fun a => a.atm_iv)
          = some none ∧
      (analyze_chain rows current_price min_volume ct).map (fun a => a.atm_delta)
          = some none) ∧
    (∀ (l₁ : List (ℕ × OptionRow)) (q : ℕ × OptionRow)
        (l₂ : List (ℕ × OptionRow)),
      liquidRows rows min_volume = l₁ ++ q :: l₂ →
      (∀ x ∈ l₁, |q.2.strike - current_price| < |x.2.strike - current_price|) →
      (∀ x ∈ liquidRows rows min_volume,
          |q.2.strike - current_price| ≤ |x.2.strike - current_price|) →
      (analyze_chain rows current_price min_volume ct).map (fun a => a.atm_strike)
          = some (some q.2.strike) ∧
      (analyze_chain rows current_price min_volume ct).map (fun a => a.atm_iv)
          = some (some (q.2.impliedVolatility * 100)) ∧
      (analyze_chain rows current_price min_volume ct).map (fun a => a.atm_delta)
          = some q.2.delta) := by
  rw [analyze_chain_some rows current_price min_volume ct hne]
  constructor
  · intro hliq
    rw [hliq]
    exact ⟨rfl, rfl, rfl⟩
  · intro l₁ q l₂ hdec hstrict hmin
    cases hL : liquidRows rows min_volume with
    | nil =>
        rw [hL] at hdec
        exact absurd hdec.symm (List.append_ne_nil_of_right_ne_nil _ (by simp))
    | cons c rest =>
        obtain ⟨m₁, m₂, hdec2, hstrict2, hmin2⟩ :=
          foldl_min_first (fun x => |x.2.strike - current_price|) rest c
        generalize hm : rest.foldl
            (fun acc y =>
              if |y.2.strike - current_price| < |acc.2.strike - current_price|
              then y else acc) c = m at hdec2 hstrict2 hmin2
        have hargmin :
            argminFirst (fun x => |x.2.strike - current_price|)
                (c :: rest) = some m := by
          rw [argminFirst, hm]
        rw [← hL] at hdec2 hmin2
        have h1 := first_min_unique
          (fun x : ℕ × OptionRow => |x.2.strike - current_price|) l₁
          (liquidRows rows min_volume) l₂ m₁ m₂ q m hdec hdec2
        have heq : q = m := h1 hstrict hmin hstrict2 hmin2
        rw [hargmin, ← heq]
        exact ⟨rfl, rfl, rfl⟩

/-- Witness for C3 at the specification's worked example: strikes
[95,100,105,110,115] with volumes [50,200,500,150,30], min_volume 75 and
current price 106 give a liquid subset {100,105,110} and ATM strike 105
(with its IV and delta). -/
theorem analyze_chain_atm_spec_witness :
    (analyze_chain exampleRows 106 75 "calls").map (fun a => a.atm_strike)
        = some (some 105) ∧
    (analyze_chain exampleRows 106 75 "calls").map (fun a => a.atm_iv)
        = some (some (30/100 * 100)) ∧
    (analyze_chain exampleRows 106 75 "calls").map (fun a => a.atm_delta)
        = some (some (1/2)) :=
  (analyze_chain_atm_spec exampleRows 106 75 "calls" (by decide)).2
    [(1, ⟨100, some 200, some 20, 35/100, none⟩)]
    (2, ⟨105, some 500, some 30, 30/100, some (1/2)⟩)
    [(3, ⟨110, some 150, some 40, 32/100, none⟩)]
    (by decide) (by decide) (by decide)

/-- Entries of a top-N list come from the ranked list itself. -/
theorem nlargest_mem (metric : OptionRow → Option ℕ)
    (l : List (ℕ × OptionRow)) :
    ∀ q ∈ nlargestBy metric l, q ∈ l := by
  intro q hq
  have h1 : q ∈ (l.filter (fun x => (metric x.2).isSome)).insertionSort
      (rankLe metric) :=
    List.take_subset _ _ hq
  have h2 :=
    (List.perm_insertionSort (rankLe metric)
      (l.filter (fun x => (metric x.2).isSome))).mem_iff.mp h1
  exact (List.mem_filter.mp h2).1

/-- A top-N list never exceeds the limit nor the number of candidates. -/
theorem nlargest_length (metric : OptionRow → Option ℕ)
    (l : List (ℕ × OptionRow)) :
    (nlargestBy metric l).length ≤ min TOP_STRIKES_LIMIT l.length := by
  unfold nlargestBy
  rw [List.length_take, List.length_insertionSort]
  have := List.length_filter_le (fun x => (metric x.2).isSome) l
  omega

/-- The original positions attached to the liquid subset are distinct. -/
theorem liquid_fst_nodup (rows : List OptionRow) (mv : ℕ) :
    ((liquidRows rows mv).map Prod.fst).Nodup := by
  have hsub : List.Sublist (liquidRows rows mv) rows.enum :=
    List.filter_sublist _
  have hsub2 : List.Sublist ((liquidRows rows mv).map Prod.fst)
      (rows.enum.map Prod.fst) := hsub.map _
  rw [List.enum_map_fst] at hsub2
  exact (List.nodup_range _).sublist hsub2

/-- The positions in a top-N list are distinct whenever those of the
candidate list are. -/
theorem nlargest_fst_nodup (metric : OptionRow → Option ℕ)
    (l : List (ℕ × OptionRow)) (h : (l.map Prod.fst).Nodup) :
    ((nlargestBy metric l).map Prod.fst).Nodup := by
  have h1 : List.Sublist ((l.filter (fun x => (metric x.2).isSome)).map Prod.fst)
      (l.map Prod.fst) := (List.filter_sublist _).map _
  have h2 := h.sublist h1
  have h3 : ((((l.filter (fun x => (metric x.2).isSome)).insertionSort
      (rankLe metric))).map Prod.fst).Nodup :=
    ((List.perm_insertionSort (rankLe metric) _).map Prod.fst).nodup_iff.mpr h2
  exact h3.sublist ((List.take_sublist _ _).map _)

/-- A top-N list is sorted strictly: metric descending, with ties broken
by the original position (ascending). -/
theorem nlargest_pairwise (metric : OptionRow → Option ℕ)
    (l : List (ℕ × OptionRow)) (h : (l.map Prod.fst).Nodup) :
    (nlargestBy metric l).Pairwise
      (fun x y => (metric y.2).getD 0 < (metric x.2).getD 0 ∨
        ((metric x.2).getD 0 = (metric y.2).getD 0 ∧ x.1 < y.1)) := by
  have hsorted :
      List.Sorted (rankLe metric)
        ((l.filter (fun x => (metric x.2).isSome)).insertionSort (rankLe metric)) :=
    List.sorted_insertionSort (rankLe metric) _
  have htake : (nlargestBy metric l).Pairwise (rankLe metric) :=
    hsorted.sublist (List.take_sublist _ _)
  have hnd : ((nlargestBy metric l).map Prod.fst).Nodup :=
    nlargest_fst_nodup metric l h
  have hne : (nlargestBy metric l).Pairwise (fun x y => x.1 ≠ y.1) :=
    List.pairwise_map.mp hnd
  refine (htake.and hne).imp ?_
  intro a b hab
  obtain ⟨hr, hne'⟩ := hab
  unfold rankLe at hr
  rcases hr with hlt | ⟨heq, hle⟩
  · exact Or.inl hlt
  · exact Or.inr ⟨heq, lt_of_le_of_ne hle hne'⟩

/-- Claim C5: for a non-empty chain, analyze_chain satisfies
liquid_contracts <= total_contracts; both top-N lists have length at most
min(5, liquid_contracts); they are images of index-tagged liquid rows
(so they contain only rows from the liquid subset); and the underlying
index-tagged selections are sorted descending by the ranking metric with
ties broken by original row order. -/
theorem analyze_chain_top_lists_spec (rows : List OptionRow) (p : ℚ)
    (mv : ℕ) (ct : String) (hne : rows ≠ []) (a : ChainAnalysis)
    (h : analyze_chain rows p mv ct = some a) :
    a.liquid_contracts ≤ a.total_contracts ∧
    a.top_volume_strikes.length ≤ min TOP_STRIKES_LIMIT a.liquid_contracts ∧
    a.top_oi_strikes.length ≤ min TOP_STRIKES_LIMIT a.liquid_contracts ∧
    a.top_volume_strikes
        = (nlargestBy (fun r => r.volume) (liquidRows rows mv)).map
            (fun q => ⟨q.2.strike, q.2.volume.getD 0, q.2.impliedVolatility * 100⟩) ∧
    a.top_oi_strikes
        = (nlargestBy (fun r => r.openInterest) (liquidRows rows mv)).map
            (fun q =>
              ⟨q.2.strike, q.2.openInterest.getD 0, q.2.impliedVolatility * 100⟩) ∧
    (∀ q ∈ nlargestBy (fun r => r.volume) (liquidRows rows mv),
        q ∈ liquidRows rows mv) ∧
    (∀ q ∈ nlargestBy (fun r => r.openInterest) (liquidRows rows mv),
        q ∈ liquidRows rows mv) ∧
    (nlargestBy (fun r => r.volume) (liquidRows rows mv)).Pairwise
      (fun x y => (y.2.volume).getD 0 < (x.2.volume).getD 0 ∨
        ((x.2.volume).getD 0 = (y.2.volume).getD 0 ∧ x.1 < y.1)) ∧
    (nlargestBy (fun r => r.openInterest) (liquidRows rows mv)).Pairwise
      (fun x y => (y.2.openInterest).getD 0 < (x.2.openInterest).getD 0 ∨
        ((x.2.openInterest).getD 0 = (y.2.openInterest).getD 0 ∧ x.1 < y.1)) := by
  rw [analyze_chain_some rows p mv ct hne] at h
  injection h with h'
  subst h'
  refine ⟨?_, ?_, ?_, rfl, rfl, nlargest_mem _ _, nlargest_mem _ _,
    nlargest_pairwise _ _ (liquid_fst_nodup rows mv),
    nlargest_pairwise _ _ (liquid_fst_nodup rows mv)⟩
  · show (liquidRows rows mv).length ≤ rows.length
    have h1 := List.length_filter_le (fun q => isLiquid mv q.2) rows.enum
    have h2 : rows.enum.length = rows.length := List.enum_length
    unfold liquidRows
    omega
  · show ((nlargestBy (fun r => r.volume) (liquidRows rows mv)).map _).length ≤ _
    rw [List.length_map]
    exact nlargest_length _ _
  · show ((nlargestBy (fun r => r.openInterest) (liquidRows rows mv)).map _).length ≤ _
    rw [List.length_map]
    exact nlargest_length _ _

/-- The ChainAnalysis computed on the example chain. -/
def exampleAnalysis : ChainAnalysis :=
  { total_contracts := 5
    liquid_contracts := 3
    total_volume := 930
    total_open_interest := 150
    avg_implied_volatility := 182/5
    max_iv := 45
    min_iv := 30
    atm_strike := some 105
    atm_iv := some 30
    atm_delta := some (1/2)
    top_volume_strikes := [⟨105, 500, 30⟩, ⟨100, 200, 35⟩, ⟨110, 150, 32⟩]
    top_oi_strikes := [⟨110, 40, 32⟩, ⟨105, 30, 30⟩, ⟨100, 20, 35⟩] }

/-- Witness for C5 at the example chain (three liquid rows, top lists of
length three, strictly ordered by their metrics). -/
theorem analyze_chain_top_lists_spec_witness :
    exampleAnalysis.liquid_contracts ≤ exampleAnalysis.total_contracts ∧
    exampleAnalysis.top_volume_strikes.length
        ≤ min TOP_STRIKES_LIMIT exampleAnalysis.liquid_contracts ∧
    exampleAnalysis.top_oi_strikes.length
        ≤ min TOP_STRIKES_LIMIT exampleAnalysis.liquid_contracts ∧
    exampleAnalysis.top_volume_strikes
        = (nlargestBy (fun r => r.volume) (liquidRows exampleRows 75)).map
            (fun q => ⟨q.2.strike, q.2.volume.getD 0, q.2.impliedVolatility * 100⟩) ∧
    exampleAnalysis.top_oi_strikes
        = (nlargestBy (fun r => r.openInterest) (liquidRows exampleRows 75)).map
            (fun q =>
              ⟨q.2.strike, q.2.openInterest.getD 0, q.2.impliedVolatility * 100⟩) ∧
    (∀ q ∈ nlargestBy (fun r => r.volume) (liquidRows exampleRows 75),
        q ∈ liquidRows exampleRows 75) ∧
    (∀ q ∈ nlargestBy (fun r => r.openInterest) (liquidRows exampleRows 75),
        q ∈ liquidRows exampleRows 75) ∧
    (nlargestBy (fun r => r.volume) (liquidRows exampleRows 75)).Pairwise
      (fun x y => (y.2.volume).getD 0 < (x.2.volume).getD 0 ∨
        ((x.2.volume).getD 0 = (y.2.volume).getD 0 ∧ x.1 < y.1)) ∧
    (nlargestBy (fun r => r.openInterest) (liquidRows exampleRows 75)).Pairwise
      (fun x y => (y.2.openInterest).getD 0 < (x.2.openInterest).getD 0 ∨
        ((x.2.openInterest).getD 0 = (y.2.openInterest).getD 0 ∧ x.1 < y.1)) :=
  analyze_chain_top_lists_spec exampleRows 106 75 "calls" (by decide)
    exampleAnalysis (by decide)

/-- Counterexample for claim C8: with a put/call volume ratio of 2.0 and 3
days to expiration, RiskEngine.assess emits the PCR warning with the value
rendered to two decimal places ("2.00", and the message does not contain
the one-decimal rendering "(2.0)"), and the DTE warning with the plain
integer ("3 days", no "3.0" anywhere), so not every firing check embeds
its triggering value to one decimal place. -/
theorem assess_one_decimal_counterexample :
    assess none none (some ⟨some 2, none⟩) 3 =
      (["High Put/Call Volume Ratio (2.00) - bearish sentiment, heavy put buying",
        "Short time to expiration (3 days) - high theta decay, rapid price movement needed"],
        []) ∧
    formatFixed 2 1 = "2.0" ∧
    strContains
      "High Put/Call Volume Ratio (2.00) - bearish sentiment, heavy put buying"
      "(2.0)" = false ∧
    formatFixed 3 1 = "3.0" ∧
    strContains
      "Short time to expiration (3 days) - high theta decay, rapid price movement needed"
      "3.0" = false := by
  refine ⟨by decide, by decide, by decide, by decide, by decide⟩

/-- Claim C8 (amended): each firing check embeds its triggering value in a
fixed format, but the precision is not uniformly one decimal place: the
IV-level (high and low), IV-skew (put and call) and volume/OI-ratio
messages use one decimal place, the PCR messages use two decimals, the
DTE messages embed the plain integer day count, and the OI-concentration
message embeds the strike and the percentage as whole numbers. -/
theorem risk_messages_format :
    (∀ (v : ℚ) (oi : Option ℚ), PCR_BEARISH_THRESHOLD < v →
      assess_pcr (some ⟨some v, oi⟩) =
        (["High Put/Call Volume Ratio (" ++ formatFixed v 2 ++
          ") - bearish sentiment, heavy put buying"], [])) ∧
    (∀ (v : ℚ) (oi : Option ℚ), v < PCR_BULLISH_THRESHOLD →
      assess_pcr (some ⟨some v, oi⟩) =
        ([], ["Low Put/Call Volume Ratio (" ++ formatFixed v 2 ++
          ") - bullish sentiment, heavy call buying"])) ∧
    (∀ dte : ℤ, dte < DTE_SHORT_WARNING →
      assess_dte dte =
        (["Short time to expiration (" ++ intStr dte ++
          " days) - high theta decay, rapid price movement needed"], [])) ∧
    (∀ dte : ℤ, DTE_LONG_OPPORTUNITY < dte →
      assess_dte dte =
        ([], ["Long time to expiration (" ++ intStr dte ++
          " days) - lower theta decay, suitable for longer-term positions"])) ∧
    (∀ (c : ChainAnalysis) (lbl : String) (t : TopOIStrike)
        (rest : List TopOIStrike),
      c.top_oi_strikes = t :: rest → c.total_open_interest ≠ 0 →
      OI_CONCENTRATION_WARNING
          < (t.open_interest : ℚ) / (c.total_open_interest : ℚ) →
      oiConcentrationSide (some c) lbl =
        ["High OI concentration in " ++ lbl ++ " at $" ++
          formatFixed t.strike 0 ++ " strike (" ++
          formatFixed
            ((t.open_interest : ℚ) / (c.total_open_interest : ℚ) * 100) 0 ++
          "% of total) - potential pin risk"]) ∧
    (∀ c : ChainAnalysis, IV_HIGH_THRESHOLD < c.avg_implied_volatility →
      assess_iv (some c) none =
        (["High implied volatility (" ++
          formatFixed c.avg_implied_volatility 1 ++
          "%) - options are expensive, consider selling strategies or spreads"],
          [])) ∧
    (∀ c : ChainAnalysis, c.avg_implied_volatility < IV_LOW_THRESHOLD →
      assess_iv (some c) none =
        ([], ["Low implied volatility (" ++
          formatFixed c.avg_implied_volatility 1 ++
          "%) - options are cheap, consider buying strategies"])) ∧
    (∀ (c p : ChainAnalysis) (civ piv : ℚ),
      c.atm_iv = some civ → p.atm_iv = some piv →
      IV_SKEW_SIGNIFICANT < |piv - civ| → 0 < piv - civ →
      assess_iv_skew (some c) (some p) =
        (["Significant put skew (" ++ formatFixed (piv - civ) 1 ++
          "pp) - demand for downside protection elevated"], [])) ∧
    (∀ (c p : ChainAnalysis) (civ piv : ℚ),
      c.atm_iv = some civ → p.atm_iv = some piv →
      IV_SKEW_SIGNIFICANT < |piv - civ| → ¬ 0 < piv - civ →
      assess_iv_skew (some c) (some p) =
        ([], ["Significant call skew (" ++ formatFixed |piv - civ| 1 ++
          "pp) - upside positioning favored by options market"])) ∧
    (∀ (c : ChainAnalysis) (lbl : String), c.total_open_interest ≠ 0 →
      UNUSUAL_VOLUME_RATIO
          < (c.total_volume : ℚ) / (c.total_open_interest : ℚ) →
      unusualActivitySide (some c) lbl =
        ["Unusual " ++ lbl ++ " activity - volume/OI ratio " ++
          formatFixed ((c.total_volume : ℚ) / (c.total_open_interest : ℚ)) 1 ++
          "x suggests new positioning"]) := by
  refine ⟨?_, ?_, ?_, ?_, ?_, ?_, ?_, ?_, ?_, ?_⟩
  · intro v oi h
    simp only [assess_pcr]
    rw [if_pos h]
  · intro v oi h
    have hnb : ¬ PCR_BEARISH_THRESHOLD < v := by
      unfold PCR_BEARISH_THRESHOLD
      unfold PCR_BULLISH_THRESHOLD at h
      linarith
    simp only [assess_pcr]
    rw [if_neg hnb, if_pos h]
  · intro dte h
    simp only [assess_dte]
    rw [if_pos h]
  · intro dte h
    have hns : ¬ dte < DTE_SHORT_WARNING := by
      unfold DTE_SHORT_WARNING
      unfold DTE_LONG_OPPORTUNITY at h
      omega
    simp only [assess_dte]
    rw [if_neg hns, if_pos h]
  · intro c lbl t rest htop h0 hconc
    simp only [oiConcentrationSide]
    rw [if_neg h0, htop]
    dsimp only
    rw [if_pos hconc]
  · intro c h
    simp only [assess_iv, assessIvOn]
    rw [if_pos h]
  · intro c h
    have hnh : ¬ IV_HIGH_THRESHOLD < c.avg_implied_volatility := by
      unfold IV_HIGH_THRESHOLD
      unfold IV_LOW_THRESHOLD at h
      linarith
    simp only [assess_iv, assessIvOn]
    rw [if_neg hnh, if_pos h]
  · intro c p civ piv hc hp habs hpos
    simp only [assess_iv_skew]
    rw [hc, hp]
    dsimp only
    rw [if_pos habs, if_pos hpos]
  · intro c p civ piv hc hp habs hneg
    simp only [assess_iv_skew]
    rw [hc, hp]
    dsimp only
    rw [if_pos habs, if_neg hneg]
  · intro c lbl h0 hr
    simp only [unusualActivitySide]
    rw [if_neg h0]
    rw [if_pos hr]

/-- Witness for C8 (amended) at concrete inputs: ratio 2.0 renders as
"2.00", 3 days as "3 days", and a put skew of 12.5 points as "12.5pp". -/
theorem risk_messages_format_witness :
    assess_pcr (some ⟨some 2, none⟩) =
      (["High Put/Call Volume Ratio (" ++ formatFixed 2 2 ++
        ") - bearish sentiment, heavy put buying"], []) ∧
    assess_dte 3 =
      (["Short time to expiration (" ++ intStr 3 ++
        " days) - high theta decay, rapid price movement needed"], []) ∧
    assess_iv_skew (some exampleAnalysis)
        (some { exampleAnalysis with atm_iv := some (425/10) }) =
      (["Significant put skew (" ++ formatFixed (425/10 - 30) 1 ++
        "pp) - demand for downside protection elevated"], []) :=
  ⟨risk_messages_format.1 2 none (by decide),
    risk_messages_format.2.2.1 3 (by decide),
    risk_messages_format.2.2.2.2.2.2.2.1 exampleAnalysis
      { exampleAnalysis with atm_iv := some (425/10) } 30 (425/10)
      rfl rfl (by decide) (by decide)⟩
